import Mathlib

/-!
Verification of the test-result aggregation and artifact-capture pipeline of a
Playwright-based end-to-end test suite.  The definitions below are shallow
embeddings of the TypeScript sources:

* `WaitUtils.waitWithRetry` (wait utility class),
* the `page.goto` retry wrapper installed by the `retryTest` fixture
  (`src/fixtures/TestFixtures.ts`),
* `escapeHtml`, the run-summary counters, the pass-rate computation and the
  HTML rendering of `CustomHtmlReporter` (both the basic and the enhanced
  variant contained in `src/reporters/CustomHtmlReporter.ts`),
* `ReportUtils.stopTraceRecording` (both variants) and
  `ReportUtils.createFailureReport` (`src/utils/ReportUtils.ts`).

Asynchronous operations are modelled as pure functions from an attempt index
(or an explicit environment of success oracles for the I/O steps) to an
`Except` value; a thrown JavaScript value is an `Except.error`.  Timers only
record the requested delay.
-/

namespace ThucWeb

/-! ## WaitUtils.waitWithRetry (src/unnamed/part_002, lines 262-281)

```ts
static async waitWithRetry<T>(
  operation: () => Promise<T>,
  maxRetries: number = 3,
  retryDelay: number = 1000
): Promise<T> {
  let lastError: Error;
  for (let i = 0; i < maxRetries; i++) {
    try {
      return await operation();
    } catch (error) {
      lastError = error as Error;
      if (i < maxRetries - 1) {
        await this.waitForTimeout(retryDelay);
      }
    }
  }
  throw lastError!;
}
```

The operation is modelled as a function from the 0-based attempt index to an
`Except ε α` (the i-th invocation either throws an `ε` or returns an `α`).
The outcome records the value returned or thrown (`Except.error none` models
throwing the never-assigned `lastError`, i.e. `undefined`), the number of
invocations of the operation, and the list of delays awaited between
attempts, in order.
-/

structure RetryOutcome (ε α : Type) where
  result : Except (Option ε) α
  calls : Nat
  delays : List Nat
deriving Repr

/-- The `for` loop of `waitWithRetry`: `i` is the current loop index,
the second argument is the number of remaining iterations
(`maxRetries - i`), and the last argument is the current value of
`lastError` (`none` = still unassigned).  The delay is awaited only when
`i < maxRetries - 1`, i.e. when at least one further iteration remains. -/
def retryLoop {ε α : Type} (op : Nat → Except ε α) (retryDelay : Nat) :
    Nat → Nat → Option ε → RetryOutcome ε α
  | _, 0, last => { result := Except.error last, calls := 0, delays := [] }
  | i, r + 1, _ =>
    match op i with
    | Except.ok v => { result := Except.ok v, calls := 1, delays := [] }
    | Except.error e =>
      match r with
      | 0 => { result := Except.error (some e), calls := 1, delays := [] }
      | r' + 1 =>
        let rest := retryLoop op retryDelay (i + 1) (r' + 1) (some e)
        { result := rest.result, calls := rest.calls + 1,
          delays := retryDelay :: rest.delays }

/-- `WaitUtils.waitWithRetry`.  `maxRetries` is an `Int` because the source
places no lower bound on it; a non-positive value makes the loop body
unreachable. -/
def waitWithRetry {ε α : Type} (op : Nat → Except ε α) (maxRetries : Int)
    (retryDelay : Nat) : RetryOutcome ε α :=
  retryLoop op retryDelay 0 maxRetries.toNat none

/-! ## The navigation retry wrapper of the `retryTest` fixture
(src/src/fixtures/TestFixtures.ts, lines 307-327)

```ts
page.goto = async (url: string, options?: any) => {
  let lastError;
  for (let i = 0; i < 3; i++) {
    try {
      return await originalGoto(url, options);
    } catch (error) {
      lastError = error;
      console.log(`Navigation attempt ${i + 1} failed, retrying...`);
      await TestUtils.wait(1000 * (i + 1)); // Exponential backoff
    }
  }
  throw lastError;
};
```

Unlike `waitWithRetry`, the delay `1000 * (i + 1)` is awaited after every
failed attempt, including the last one. -/

/-- The `for` loop of the wrapped `page.goto`; arguments as in `retryLoop`. -/
def gotoLoop {ε α : Type} (op : Nat → Except ε α) :
    Nat → Nat → Option ε → RetryOutcome ε α
  | _, 0, last => { result := Except.error last, calls := 0, delays := [] }
  | i, r + 1, _ =>
    match op i with
    | Except.ok v => { result := Except.ok v, calls := 1, delays := [] }
    | Except.error e =>
      let rest := gotoLoop op (i + 1) r (some e)
      { result := rest.result, calls := rest.calls + 1,
        delays := 1000 * (i + 1) :: rest.delays }

/-- The wrapped `page.goto` installed by the `retryTest` fixture: three
attempts, delay `1000 * (i + 1)` after each failed attempt. -/
def retryTestGoto {ε α : Type} (op : Nat → Except ε α) : RetryOutcome ε α :=
  gotoLoop op 0 3 none

/-- C4: for an operation that throws on every invocation,
`waitWithRetry(operation, maxRetries = 3, retryDelay)` invokes the operation
exactly 3 times, awaits the fixed delay between consecutive attempts (and not
after the last one), and re-raises the error thrown by the final attempt; for
an operation that first succeeds at attempt `k < 3`, it invokes the operation
`k + 1` times, awaits `k` fixed delays and returns the successful result. -/
theorem waitWithRetry_spec {ε α : Type} (op : Nat → Except ε α) (d : Nat) :
    (∀ e0 e1 e2, op 0 = Except.error e0 → op 1 = Except.error e1 →
      op 2 = Except.error e2 →
      waitWithRetry op 3 d =
        { result := Except.error (some e2), calls := 3, delays := [d, d] }) ∧
    (∀ k v, k < 3 → (∀ j, j < k → ∃ e, op j = Except.error e) →
      op k = Except.ok v →
      waitWithRetry op 3 d =
        { result := Except.ok v, calls := k + 1,
          delays := List.replicate k d }) := by
  constructor
  · intro e0 e1 e2 h0 h1 h2
    simp [waitWithRetry, retryLoop, h0, h1, h2]
  · intro k v hk hfail hok
    interval_cases k
    · simp [waitWithRetry, retryLoop, hok]
    · obtain ⟨e0, h0⟩ := hfail 0 (by omega)
      simp [waitWithRetry, retryLoop, h0, hok]
    · obtain ⟨e0, h0⟩ := hfail 0 (by omega)
      obtain ⟨e1, h1⟩ := hfail 1 (by omega)
      simp [waitWithRetry, retryLoop, h0, h1, hok, List.replicate]

/-- Witness for C4: an always-throwing operation is invoked 3 times with two
delays of 7 and the final error re-raised; an operation succeeding on its
third attempt returns its result after 3 invocations. -/
theorem waitWithRetry_spec_witness :
    waitWithRetry (fun i => (Except.error i : Except Nat Nat)) 3 7 =
      { result := Except.error (some 2), calls := 3, delays := [7, 7] } ∧
    waitWithRetry (fun i => if i < 2 then (Except.error i : Except Nat Nat)
      else Except.ok 99) 3 7 =
      { result := Except.ok 99, calls := 3, delays := [7, 7] } := by
  constructor
  · exact (waitWithRetry_spec (fun i => (Except.error i : Except Nat Nat)) 7).1
      0 1 2 rfl rfl rfl
  · exact (waitWithRetry_spec
      (fun i => if i < 2 then (Except.error i : Except Nat Nat)
        else Except.ok 99) 7).2 2 99 (by omega)
      (fun j hj => ⟨j, by simp [hj]⟩) (by simp)

/-- C10: for every `maxRetries ≤ 0`, `waitWithRetry` never invokes the
supplied operation, awaits no delay, and throws the never-assigned
`lastError` (i.e. `undefined`, modelled as `Except.error none`) rather than
any error produced by the operation. -/
theorem waitWithRetry_nonpos {ε α : Type} (op : Nat → Except ε α) (m : Int)
    (d : Nat) (h : m ≤ 0) :
    waitWithRetry op m d =
      { result := Except.error none, calls := 0, delays := [] } := by
  unfold waitWithRetry
  rw [Int.toNat_of_nonpos h]
  rfl

/-- Witness for C10 at `maxRetries = -1`: the (always succeeding) operation
is never invoked and `undefined` is thrown. -/
theorem waitWithRetry_nonpos_witness :
    waitWithRetry (fun _ => (Except.ok 0 : Except Nat Nat)) (-1) 5 =
      { result := Except.error none, calls := 0, delays := [] } :=
  waitWithRetry_nonpos _ _ _ (by decide)

/-- C9 (recording the code bug): for a navigation that fails on all three
attempts, the `retryTest` wrapper awaits delays of 1000, 2000 and 3000 ms —
an arithmetic (linearly increasing) progression, not an exponential one, even
though the source comments the delay with "Exponential backoff" — and throws
the error of the final attempt; the general `waitWithRetry` helper awaits the
same fixed delay twice. -/
theorem retryTestGoto_linear_delays {ε α : Type} (es : Nat → ε) :
    retryTestGoto (fun i => (Except.error (es i) : Except ε α)) =
      { result := Except.error (some (es 2)), calls := 3,
        delays := [1000, 2000, 3000] } ∧
    (2000 - 1000 = 3000 - 2000) ∧
    ¬ ((2000 : Nat) * 2000 = 1000 * 3000) ∧
    (∀ d, (waitWithRetry (fun i => (Except.error (es i) : Except ε α)) 3
      d).delays = [d, d]) := by
  refine ⟨?_, by decide, by decide, ?_⟩
  · simp [retryTestGoto, gotoLoop]
  · intro d
    have := (waitWithRetry_spec (fun i => (Except.error (es i) : Except ε α))
      d).1 (es 0) (es 1) (es 2) rfl rfl rfl
    rw [this]

/-! ## escapeHtml (src/src/reporters/CustomHtmlReporter.ts, lines 686-693)

```ts
private escapeHtml(text: string): string {
  return text
    .replace(/&/g, '&amp;')
    .replace(/</g, '&lt;')
    .replace(/>/g, '&gt;')
    .replace(/"/g, '&quot;')
    .replace(/'/g, '&#39;');
}
```
-/

/-- The apostrophe character (U+0027). -/
def apostChar : Char := Char.ofNat 39

/-- `text.replace(/t/g, rep)` for a single-character pattern `t`: every
occurrence of `t` is replaced by `rep`. -/
def replaceAll (t : Char) (rep : List Char) : List Char → List Char
  | [] => []
  | c :: cs => (if c = t then rep else [c]) ++ replaceAll t rep cs

/-- The five chained global replacements of `escapeHtml`, applied to the
character list of the input in source order (`&` first, then `<`, `>`, `"`,
and the apostrophe last). -/
def escChain (l : List Char) : List Char :=
  replaceAll apostChar (("&#39;").data)
    (replaceAll '"' (("&quot;").data)
      (replaceAll '>' (("&gt;").data)
        (replaceAll '<' (("&lt;").data)
          (replaceAll '&' (("&amp;").data) l))))

/-- `CustomHtmlReporter.escapeHtml`. -/
def escapeHtml (s : String) : String :=
  String.mk (escChain s.data)

/-- Character lists in which the characters `&`, `<`, `>`, `"` and `'`
occur only as part of one of the five HTML entities `&amp;` `&lt;` `&gt;`
`&quot;` `&#39;`: such a list is a concatenation of entity blocks and
characters other than those five. -/
inductive EscSeq : List Char → Prop
  | nil : EscSeq []
  | escAmp {t : List Char} : EscSeq t →
      EscSeq ('&' :: 'a' :: 'm' :: 'p' :: ';' :: t)
  | escLt {t : List Char} : EscSeq t →
      EscSeq ('&' :: 'l' :: 't' :: ';' :: t)
  | escGt {t : List Char} : EscSeq t →
      EscSeq ('&' :: 'g' :: 't' :: ';' :: t)
  | escQt {t : List Char} : EscSeq t →
      EscSeq ('&' :: 'q' :: 'u' :: 'o' :: 't' :: ';' :: t)
  | escApos {t : List Char} : EscSeq t →
      EscSeq ('&' :: '#' :: '3' :: '9' :: ';' :: t)
  | chr {c : Char} {t : List Char} : c ≠ '&' → c ≠ '<' → c ≠ '>' →
      c ≠ '"' → c ≠ apostChar → EscSeq t → EscSeq (c :: t)

theorem replaceAll_append (t : Char) (rep : List Char) (a b : List Char) :
    replaceAll t rep (a ++ b) = replaceAll t rep a ++ replaceAll t rep b := by
  induction a with
  | nil => rfl
  | cons c cs ih => simp [replaceAll, ih]

theorem EscSeq.append {a b : List Char} (ha : EscSeq a) (hb : EscSeq b) :
    EscSeq (a ++ b) := by
  induction ha with
  | nil => simpa using hb
  | escAmp _ ih => exact EscSeq.escAmp ih
  | escLt _ ih => exact EscSeq.escLt ih
  | escGt _ ih => exact EscSeq.escGt ih
  | escQt _ ih => exact EscSeq.escQt ih
  | escApos _ ih => exact EscSeq.escApos ih
  | chr h1 h2 h3 h4 h5 _ ih => exact EscSeq.chr h1 h2 h3 h4 h5 ih

theorem escChain_cons (c : Char) (l : List Char) :
    escChain (c :: l) = escChain [c] ++ escChain l := by
  have h : c :: l = [c] ++ l := rfl
  rw [h]
  simp only [escChain, replaceAll_append]

theorem escChain_single (c : Char) : EscSeq (escChain [c]) := by
  by_cases h1 : c = '&'
  · subst h1; exact EscSeq.escAmp EscSeq.nil
  · by_cases h2 : c = '<'
    · subst h2; exact EscSeq.escLt EscSeq.nil
    · by_cases h3 : c = '>'
      · subst h3; exact EscSeq.escGt EscSeq.nil
      · by_cases h4 : c = '"'
        · subst h4; exact EscSeq.escQt EscSeq.nil
        · by_cases h5 : c = apostChar
          · subst h5; exact EscSeq.escApos EscSeq.nil
          · have : escChain [c] = [c] := by
              simp [escChain, replaceAll, h1, h2, h3, h4, h5]
            rw [this]
            exact EscSeq.chr h1 h2 h3 h4 h5 EscSeq.nil

theorem escChain_escaped (l : List Char) : EscSeq (escChain l) := by
  induction l with
  | nil => exact EscSeq.nil
  | cons c t ih =>
    rw [escChain_cons]
    exact EscSeq.append (escChain_single c) ih

/-! ## Recorded test outcomes and the run summary
(src/src/reporters/CustomHtmlReporter.ts, enhanced variant, lines 190-198)

`onTestEnd` appends `{ test, result }` pairs to `this.testResults`;
`generateHtmlReport` derives the summary by filtering on `result.status`.
Playwright's `TestResult.status` is a string (its own type admits `passed`,
`failed`, `timedOut`, `skipped` and `interrupted`), so the status field is
modelled as a `String`.

```ts
const totalTests = this.testResults.length;
const passedTests = this.testResults.filter(r => r.result.status === 'passed').length;
const failedTests = this.testResults.filter(r => r.result.status === 'failed').length;
const skippedTests = this.testResults.filter(r => r.result.status === 'skipped').length;
const flakyTests = this.testResults.filter(r => r.result.status === 'flaky').length;
const duration = this.endTime.getTime() - this.startTime.getTime();
const passRate = totalTests > 0 ? ((passedTests / totalTests) * 100).toFixed(1) : '0';
```
-/

/-- A `TestResult` attachment: `{ name, path?, contentType }`. -/
structure AttachmentRec where
  name : String
  path : Option String
  contentType : String
deriving DecidableEq, Repr

/-- `result.error`: `{ message?, stack? }`. -/
structure ErrorInfo where
  message : Option String
  stack : Option String
deriving DecidableEq, Repr

/-- One element of `this.testResults`: the fields of the `{ test, result }`
pair that the reporter reads (`test.title`, `test.location.file`,
`result.status`, `result.duration`, `result.retry`, `result.error`,
`result.attachments`). -/
structure TestRecord where
  title : String
  file : String
  status : String
  duration : Int
  retry : Nat
  error : Option ErrorInfo
  attachments : List AttachmentRec
deriving DecidableEq, Repr

def totalTests (rs : List TestRecord) : Nat := rs.length

def passedTests (rs : List TestRecord) : Nat :=
  (rs.filter (fun r => r.status = "passed")).length

def failedTests (rs : List TestRecord) : Nat :=
  (rs.filter (fun r => r.status = "failed")).length

def skippedTests (rs : List TestRecord) : Nat :=
  (rs.filter (fun r => r.status = "skipped")).length

def flakyTests (rs : List TestRecord) : Nat :=
  (rs.filter (fun r => r.status = "flaky")).length

/-- The exact value `(passedTests / totalTests) * 100` of the pass-rate
computation (JavaScript number arithmetic modelled over `ℚ`), with the
source's ternary guard `totalTests > 0 ? ... : '0'`. -/
def passRateVal (rs : List TestRecord) : ℚ :=
  if 0 < totalTests rs then
    ((passedTests rs : ℚ) / (totalTests rs : ℚ)) * 100
  else 0

/-- Rounding to one decimal place, the numeric content of
`Number.prototype.toFixed(1)` for non-negative arguments (round half up). -/
def round1 (q : ℚ) : ℚ := ((⌊q * 10 + 1 / 2⌋ : ℤ) : ℚ) / 10

/-- `x.toFixed(1)` rendered as a string, for non-negative `x`:
the integer part and the single decimal digit of `round1 x`. -/
def jsToFixed1 (q : ℚ) : String :=
  let n : Nat := (⌊q * 10 + 1 / 2⌋).toNat
  toString (n / 10) ++ ("." : String) ++ toString (n % 10)

/-- The rendered pass-rate string
`totalTests > 0 ? ((passedTests / totalTests) * 100).toFixed(1) : '0'`. -/
def passRateStr (rs : List TestRecord) : String :=
  if 0 < totalTests rs then
    jsToFixed1 (((passedTests rs : ℚ) / (totalTests rs : ℚ)) * 100)
  else "0"

theorem passedTests_le_totalTests (rs : List TestRecord) :
    passedTests rs ≤ totalTests rs :=
  List.length_filter_le _ rs

theorem round1_bounds {q : ℚ} (h0 : 0 ≤ q) (h1 : q ≤ 100) :
    0 ≤ round1 q ∧ round1 q ≤ 100 := by
  constructor
  · have : (0 : ℤ) ≤ ⌊q * 10 + 1 / 2⌋ := Int.floor_nonneg.mpr (by linarith)
    unfold round1
    positivity
  · have hfl : ⌊q * 10 + 1 / 2⌋ ≤ 1000 := by
      rw [Int.floor_le_iff]
      push_cast
      linarith
    unfold round1
    rw [div_le_iff₀ (by norm_num : (0 : ℚ) < 10)]
    calc ((⌊q * 10 + 1 / 2⌋ : ℤ) : ℚ) ≤ ((1000 : ℤ) : ℚ) := by exact_mod_cast hfl
    _ = 100 * 10 := by norm_num

/-- A recorded outcome whose status is `timedOut` — a value Playwright's
`TestResult.status` can take (a test aborted by its timeout). -/
def timedOutRecord : TestRecord :=
  { title := "t", file := "f.spec.ts", status := "timedOut", duration := 1,
    retry := 0, error := none, attachments := [] }

/-- C1 counterexample: for the one-element sequence containing a `timedOut`
outcome, the reporter's `totalCount` is 1 while the four per-status counts
sum to 0, so `totalCount = passedCount + failedCount + skippedCount +
flakyCount` fails. -/
theorem summary_counts_counterexample :
    ¬ (totalTests [timedOutRecord] =
      passedTests [timedOutRecord] + failedTests [timedOutRecord] +
      skippedTests [timedOutRecord] + flakyTests [timedOutRecord]) := by
  decide

/-- C1 (amended): the identity `totalCount = passedCount + failedCount +
skippedCount + flakyCount` holds for every sequence of recorded outcomes in
which each status is one of `passed`, `failed`, `skipped`, `flaky`; an
outcome with any other status (such as `timedOut` or `interrupted`)
contributes to `totalCount` but to none of the four per-status counts. -/
theorem summary_counts_complete (rs : List TestRecord)
    (h : ∀ r ∈ rs, r.status = "passed" ∨ r.status = "failed" ∨
      r.status = "skipped" ∨ r.status = "flaky") :
    totalTests rs =
      passedTests rs + failedTests rs + skippedTests rs + flakyTests rs := by
  induction rs with
  | nil => rfl
  | cons r rs ih =>
    have hr := h r (List.mem_cons_self r rs)
    have htail := ih (fun x hx => h x (List.mem_cons_of_mem r hx))
    simp only [totalTests, passedTests, failedTests, skippedTests, flakyTests,
      List.filter_cons, List.length_cons] at htail ⊢
    rcases hr with h1 | h1 | h1 | h1 <;> rw [h1] <;> simp <;> omega

/-- A four-outcome run exercising each counted status once. -/
def demoRecords : List TestRecord :=
  [{ title := "p", file := "a.spec.ts", status := "passed", duration := 10,
     retry := 0, error := none, attachments := [] },
   { title := "f", file := "a.spec.ts", status := "failed", duration := 20,
     retry := 0, error := none, attachments := [] },
   { title := "s", file := "b.spec.ts", status := "skipped", duration := 0,
     retry := 0, error := none, attachments := [] },
   { title := "k", file := "b.spec.ts", status := "flaky", duration := 30,
     retry := 1, error := none, attachments := [] }]

/-- Witness for C1 (amended) on a concrete four-status run. -/
theorem summary_counts_complete_witness :
    totalTests demoRecords =
      passedTests demoRecords + failedTests demoRecords +
      skippedTests demoRecords + flakyTests demoRecords :=
  summary_counts_complete demoRecords (by decide)

/-- The three-outcome run of the specification's end-to-end scenario:
passed("A", 100 ms), failed("B", 200 ms, error "boom"), skipped("C", 0 ms). -/
def demoRun : List TestRecord :=
  [{ title := "A", file := "a.spec.ts", status := "passed", duration := 100,
     retry := 0, error := none, attachments := [] },
   { title := "B", file := "a.spec.ts", status := "failed", duration := 200,
     retry := 0,
     error := some { message := some ("boom"), stack := none },
     attachments := [] },
   { title := "C", file := "a.spec.ts", status := "skipped", duration := 0,
     retry := 0, error := none, attachments := [] }]

/-- C6: the rendered pass rate is `passedCount / totalCount × 100` rounded
to one decimal place; the rounded value lies in `[0, 100]` for every
sequence of outcomes; when `totalCount = 0`, the guarding ternary yields the
string `"0"` (and value 0) rather than `NaN` or a division-by-zero error;
and on the 1-of-3-passed demo run the rendered rate is `"33.3"`. -/
theorem passRate_spec :
    (∀ rs : List TestRecord,
      0 ≤ round1 (passRateVal rs) ∧ round1 (passRateVal rs) ≤ 100 ∧
      (0 < totalTests rs → passRateStr rs = jsToFixed1 (passRateVal rs)) ∧
      (totalTests rs = 0 → passRateVal rs = 0 ∧ passRateStr rs = "0")) ∧
    passRateStr demoRun = "33.3" := by
  constructor
  · intro rs
    have hle := passedTests_le_totalTests rs
    by_cases ht : 0 < totalTests rs
    · have hq0 : (0 : ℚ) ≤ ((passedTests rs : ℚ) / (totalTests rs : ℚ)) * 100 := by
        positivity
      have hq1 : ((passedTests rs : ℚ) / (totalTests rs : ℚ)) * 100 ≤ 100 := by
        have htq : (0 : ℚ) < (totalTests rs : ℚ) := by exact_mod_cast ht
        rw [div_mul_eq_mul_div, div_le_iff₀ htq]
        have : (passedTests rs : ℚ) ≤ (totalTests rs : ℚ) := by exact_mod_cast hle
        nlinarith
      have hval : passRateVal rs =
          ((passedTests rs : ℚ) / (totalTests rs : ℚ)) * 100 := by
        simp [passRateVal, ht]
      obtain ⟨b0, b1⟩ := round1_bounds (hval ▸ hq0) (hval ▸ hq1)
      refine ⟨b0, b1, fun _ => ?_, fun h0 => absurd h0 (by omega)⟩
      simp [passRateStr, ht, hval]
    · have ht0 : totalTests rs = 0 := by omega
      have hval : passRateVal rs = 0 := by simp [passRateVal, ht0]
      refine ⟨?_, ?_, fun hc => absurd hc (by omega), fun _ => ⟨hval, ?_⟩⟩
      · rw [hval]; norm_num [round1]
      · rw [hval]; norm_num [round1]
      · simp [passRateStr, ht0]
  · have hp : passedTests demoRun = 1 := rfl
    have ht : totalTests demoRun = 3 := rfl
    have harg : ((passedTests demoRun : ℚ) / (totalTests demoRun : ℚ)) * 100 =
        100 / 3 := by
      rw [hp, ht]; norm_num
    rw [passRateStr, if_pos (by rw [ht]; norm_num), harg]
    have hfl : ⌊(100 / 3 : ℚ) * 10 + 1 / 2⌋ = 333 := by norm_num
    rw [jsToFixed1]
    rw [hfl]
    rfl

/-- Witness for C6 at the empty run: value 0 and rendered string `"0"`. -/
theorem passRate_spec_witness :
    passRateVal ([] : List TestRecord) = 0 ∧
      passRateStr ([] : List TestRecord) = "0" :=
  (passRate_spec.1 []).2.2.2 rfl

end ThucWeb

namespace ThucWeb

/-! ## HTML rendering

The static text of every template literal in
`src/src/reporters/CustomHtmlReporter.ts` is reproduced verbatim below, cut
at the `${...}` interpolation points.  Chunks `eh0`-`eh19`, `enhancedStyles`,
`enhancedScript`, `et0`-`et9`, `ee0`-`ee2`, `ea0`-`ea1`, `eat0`-`eat2`,
`elink0`-`elink1` and `eretry0`-`eretry1` stem from the enhanced reporter
variant; `bh0`-`bh9` and `bt0`-`bt5` from the basic variant.  (Braces and
apostrophes inside literals are written with `\x7b`, `\x7d` and `\x27`
escapes.)
-/

def eh0 : String :=
  "\n<!DOCTYPE html>\n<html lang=\"en\">\n<head>\n    <meta charset=\"UTF-8\">\n    <meta name=\"viewport\" content=\"width=device-width, initial-scale=1.0\">\n    <title>Test Execution Report</title>\n    <style>\n        "

def eh1 : String :=
  "\n    </style>\n</head>\n<body>\n    <div class=\"container\">\n        <header class=\"header\">\n            <h1>🎭 Playwright Test Execution Report</h1>\n            <div class=\"timestamp\">Generated on: "

def eh2 : String :=
  "</div>\n        </header>\n\n        <div class=\"summary\">\n            <div class=\"summary-card\">\n                <div class=\"summary-title\">Test Summary</div>\n                <div class=\"summary-stats\">\n                    <div class=\"stat\">\n                        <span class=\"stat-number\">"

def eh3 : String :=
  "</span>\n                        <span class=\"stat-label\">Total Tests</span>\n                    </div>\n                    <div class=\"stat passed\">\n                        <span class=\"stat-number\">"

def eh4 : String :=
  "</span>\n                        <span class=\"stat-label\">Passed</span>\n                    </div>\n                    <div class=\"stat failed\">\n                        <span class=\"stat-number\">"

def eh5 : String :=
  "</span>\n                        <span class=\"stat-label\">Failed</span>\n                    </div>\n                    <div class=\"stat skipped\">\n                        <span class=\"stat-number\">"

def eh6 : String :=
  "</span>\n                        <span class=\"stat-label\">Skipped</span>\n                    </div>\n                    <div class=\"stat flaky\">\n                        <span class=\"stat-number\">"

def eh7 : String :=
  "</span>\n                        <span class=\"stat-label\">Flaky</span>\n                    </div>\n                </div>\n                <div class=\"pass-rate\">\n                    <div class=\"pass-rate-bar\">\n                        <div class=\"pass-rate-fill\" style=\"width: "

def eh8 : String :=
  "%\"></div>\n                    </div>\n                    <div class=\"pass-rate-text\">"

def eh9 : String :=
  "% Pass Rate</div>\n                </div>\n            </div>\n\n            <div class=\"summary-card\">\n                <div class=\"summary-title\">Execution Details</div>\n                <div class=\"execution-details\">\n                    <div class=\"detail\">\n                        <span class=\"detail-label\">Start Time:</span>\n                        <span class=\"detail-value\">"

def eh10 : String :=
  "</span>\n                    </div>\n                    <div class=\"detail\">\n                        <span class=\"detail-label\">End Time:</span>\n                        <span class=\"detail-value\">"

def eh11 : String :=
  "</span>\n                    </div>\n                    <div class=\"detail\">\n                        <span class=\"detail-label\">Duration:</span>\n                        <span class=\"detail-value\">"

def eh12 : String :=
  "</span>\n                    </div>\n                    <div class=\"detail\">\n                        <span class=\"detail-label\">Environment:</span>\n                        <span class=\"detail-value\">"

def eh13 : String :=
  "</span>\n                    </div>\n                </div>\n            </div>\n        </div>\n\n        <div class=\"filters\">\n            <button class=\"filter-btn active\" onclick=\"filterTests(\x27all\x27)\">All Tests</button>\n            <button class=\"filter-btn\" onclick=\"filterTests(\x27passed\x27)\">Passed ("

def eh14 : String :=
  ")</button>\n            <button class=\"filter-btn\" onclick=\"filterTests(\x27failed\x27)\">Failed ("

def eh15 : String :=
  ")</button>\n            <button class=\"filter-btn\" onclick=\"filterTests(\x27skipped\x27)\">Skipped ("

def eh16 : String :=
  ")</button>\n            <button class=\"filter-btn\" onclick=\"filterTests(\x27flaky\x27)\">Flaky ("

def eh17 : String :=
  ")</button>\n        </div>\n\n        <div class=\"test-results\">\n            "

def eh18 : String :=
  "\n        </div>\n    </div>\n\n    <script>\n        "

def eh19 : String :=
  "\n    </script>\n</body>\n</html>"

def enhancedStyles : String :=
  "\n      * \x7b\n        margin: 0;\n        padding: 0;\n        box-sizing: border-box;\n      \x7d\n\n      body \x7b\n        font-family: -apple-system, BlinkMacSystemFont, \x27Segoe UI\x27, Roboto, sans-serif;\n        background-color: #f5f5f5;\n        color: #333;\n        line-height: 1.6;\n      \x7d\n\n      .container \x7b\n        max-width: 1200px;\n        margin: 0 auto;\n        padding: 20px;\n      \x7d\n\n      .header \x7b\n        text-align: center;\n        margin-bottom: 30px;\n        padding: 20px;\n        background: white;\n        border-radius: 8px;\n        box-shadow: 0 2px 4px rgba(0,0,0,0.1);\n      \x7d\n\n      .header h1 \x7b\n        color: #2c3e50;\n        margin-bottom: 10px;\n      \x7d\n\n      .timestamp \x7b\n        color: #7f8c8d;\n        font-size: 14px;\n      \x7d\n\n      .summary \x7b\n        display: grid;\n        grid-template-columns: 1fr 1fr;\n        gap: 20px;\n        margin-bottom: 30px;\n      \x7d\n\n      .summary-card \x7b\n        background: white;\n        padding: 20px;\n        border-radius: 8px;\n        box-shadow: 0 2px 4px rgba(0,0,0,0.1);\n      \x7d\n\n      .summary-title \x7b\n        font-size: 18px;\n        font-weight: 600;\n        margin-bottom: 15px;\n        color: #2c3e50;\n      \x7d\n\n      .summary-stats \x7b\n        display: flex;\n        justify-content: space-between;\n        margin-bottom: 20px;\n      \x7d\n\n      .stat \x7b\n        text-align: center;\n      \x7d\n\n      .stat-number \x7b\n        display: block;\n        font-size: 24px;\n        font-weight: 700;\n        color: #34495e;\n      \x7d\n\n      .stat.passed .stat-number \x7b color: #27ae60; \x7d\n      .stat.failed .stat-number \x7b color: #e74c3c; \x7d\n      .stat.skipped .stat-number \x7b color: #f39c12; \x7d\n      .stat.flaky .stat-number \x7b color: #9b59b6; \x7d\n\n      .stat-label \x7b\n        font-size: 12px;\n        color: #7f8c8d;\n        text-transform: uppercase;\n      \x7d\n\n      .pass-rate-bar \x7b\n        height: 8px;\n        background: #ecf0f1;\n        border-radius: 4px;\n        overflow: hidden;\n        margin-bottom: 5px;\n      \x7d\n\n      .pass-rate-fill \x7b\n        height: 100%;\n        background: linear-gradient(90deg, #27ae60, #2ecc71);\n        transition: width 0.3s ease;\n      \x7d\n\n      .pass-rate-text \x7b\n        text-align: center;\n        font-weight: 600;\n        color: #27ae60;\n      \x7d\n\n      .execution-details \x7b\n        display: flex;\n        flex-direction: column;\n        gap: 8px;\n      \x7d\n\n      .detail \x7b\n        display: flex;\n        justify-content: space-between;\n      \x7d\n\n      .detail-label \x7b\n        font-weight: 600;\n        color: #34495e;\n      \x7d\n\n      .detail-value \x7b\n        color: #7f8c8d;\n      \x7d\n\n      .filters \x7b\n        display: flex;\n        gap: 10px;\n        margin-bottom: 20px;\n        flex-wrap: wrap;\n      \x7d\n\n      .filter-btn \x7b\n        padding: 8px 16px;\n        border: 2px solid #bdc3c7;\n        background: white;\n        border-radius: 20px;\n        cursor: pointer;\n        font-size: 14px;\n        transition: all 0.3s ease;\n      \x7d\n\n      .filter-btn:hover \x7b\n        border-color: #3498db;\n        color: #3498db;\n      \x7d\n\n      .filter-btn.active \x7b\n        background: #3498db;\n        border-color: #3498db;\n        color: white;\n      \x7d\n\n      .test-results \x7b\n        display: flex;\n        flex-direction: column;\n        gap: 10px;\n      \x7d\n\n      .test-result \x7b\n        background: white;\n        border-radius: 8px;\n        box-shadow: 0 2px 4px rgba(0,0,0,0.1);\n        overflow: hidden;\n        border-left: 4px solid #bdc3c7;\n      \x7d\n\n      .test-result.passed \x7b border-left-color: #27ae60; \x7d\n      .test-result.failed \x7b border-left-color: #e74c3c; \x7d\n      .test-result.skipped \x7b border-left-color: #f39c12; \x7d\n      .test-result.flaky \x7b border-left-color: #9b59b6; \x7d\n\n      .test-header \x7b\n        display: flex;\n        align-items: center;\n        padding: 15px 20px;\n      \x7d\n\n      .test-status \x7b\n        font-size: 20px;\n        margin-right: 15px;\n      \x7d\n\n      .test-info \x7b\n        flex: 1;\n      \x7d\n\n      .test-title \x7b\n        font-size: 16px;\n        font-weight: 600;\n        color: #2c3e50;\n        margin-bottom: 5px;\n      \x7d\n\n      .test-meta \x7b\n        display: flex;\n        gap: 15px;\n        font-size: 12px;\n        color: #7f8c8d;\n      \x7d\n\n      .test-file \x7b\n        font-family: monospace;\n      \x7d\n\n      .test-duration \x7b\n        font-weight: 600;\n      \x7d\n\n      .test-retry \x7b\n        color: #f39c12;\n        font-weight: 600;\n      \x7d\n\n      .error-details \x7b\n        padding: 15px 20px;\n        background: #fdf2f2;\n        border-top: 1px solid #fed7d7;\n      \x7d\n\n      .error-message \x7b\n        font-weight: 600;\n        color: #e53e3e;\n        margin-bottom: 10px;\n      \x7d\n\n      .error-stack \x7b\n        font-family: monospace;\n        font-size: 12px;\n        color: #718096;\n        white-space: pre-wrap;\n        background: #f7fafc;\n        padding: 10px;\n        border-radius: 4px;\n        overflow-x: auto;\n      \x7d\n\n      .attachments \x7b\n        padding: 15px 20px;\n        background: #f8f9fa;\n        border-top: 1px solid #e9ecef;\n      \x7d\n\n      .attachments-title \x7b\n        font-weight: 600;\n        margin-bottom: 10px;\n        color: #495057;\n      \x7d\n\n      .attachment \x7b\n        display: flex;\n        justify-content: space-between;\n        align-items: center;\n        padding: 5px 0;\n      \x7d\n\n      .attachment-name \x7b\n        font-family: monospace;\n        font-size: 12px;\n        color: #6c757d;\n      \x7d\n\n      .attachment a \x7b\n        color: #007bff;\n        text-decoration: none;\n        font-size: 12px;\n      \x7d\n\n      .attachment a:hover \x7b\n        text-decoration: underline;\n      \x7d\n\n      @media (max-width: 768px) \x7b\n        .summary \x7b\n          grid-template-columns: 1fr;\n        \x7d\n        \n        .summary-stats \x7b\n          flex-wrap: wrap;\n          gap: 10px;\n        \x7d\n        \n        .test-meta \x7b\n          flex-direction: column;\n          gap: 5px;\n        \x7d\n      \x7d\n    "

def enhancedScript : String :=
  "\n      function filterTests(status) \x7b\n        const testResults = document.querySelectorAll(\x27.test-result\x27);\n        const filterBtns = document.querySelectorAll(\x27.filter-btn\x27);\n        \n        // Update active filter button\n        filterBtns.forEach(btn => btn.classList.remove(\x27active\x27));\n        event.target.classList.add(\x27active\x27);\n        \n        // Show/hide test results\n        testResults.forEach(result => \x7b\n          if (status === \x27all\x27 || result.dataset.status === status) \x7b\n            result.style.display = \x27block\x27;\n          \x7d else \x7b\n            result.style.display = \x27none\x27;\n          \x7d\n        \x7d);\n      \x7d\n      \n      // Add smooth scrolling to anchors\n      document.querySelectorAll(\x27a[href^=\"#\"]\x27).forEach(anchor => \x7b\n        anchor.addEventListener(\x27click\x27, function (e) \x7b\n          e.preventDefault();\n          document.querySelector(this.getAttribute(\x27href\x27)).scrollIntoView(\x7b\n            behavior: \x27smooth\x27\n          \x7d);\n        \x7d);\n      \x7d);\n    "

def et0 : String :=
  "\n        <div class=\"test-result "

def et1 : String :=
  "\" data-status=\""

def et2 : String :=
  "\">\n          <div class=\"test-header\">\n            <div class=\"test-status\">"

def et3 : String :=
  "</div>\n            <div class=\"test-info\">\n              <div class=\"test-title\">"

def et4 : String :=
  "</div>\n              <div class=\"test-meta\">\n                <span class=\"test-file\">"

def et5 : String :=
  "</span>\n                <span class=\"test-duration\">"

def et6 : String :=
  "ms</span>\n                "

def et7 : String :=
  "\n              </div>\n            </div>\n          </div>\n          "

def et8 : String :=
  "\n          "

def et9 : String :=
  "\n        </div>\n      "

def ee0 : String :=
  "\n        <div class=\"error-details\">\n          <div class=\"error-message\">"

def ee1 : String :=
  "</div>\n          <div class=\"error-stack\">"

def ee2 : String :=
  "</div>\n        </div>\n      "

def ea0 : String :=
  "\n        <div class=\"attachments\">\n          <div class=\"attachments-title\">Attachments:</div>\n          "

def ea1 : String :=
  "\n        </div>\n      "

def eat0 : String :=
  "\n            <div class=\"attachment\">\n              <span class=\"attachment-name\">"

def eat1 : String :=
  "</span>\n              "

def eat2 : String :=
  "\n            </div>\n          "

def elink0 : String :=
  "<a href=\""

def elink1 : String :=
  "\" target=\"_blank\">View</a>"

def eretry0 : String :=
  "<span class=\"test-retry\">Retry: "

def eretry1 : String :=
  "</span>"

def bh0 : String :=
  "\n<!DOCTYPE html>\n<html lang=\"en\">\n<head>\n    <meta charset=\"UTF-8\">\n    <meta name=\"viewport\" content=\"width=device-width, initial-scale=1.0\">\n    <title>Test Execution Report</title>\n    <style>\n        body \x7b font-family: Arial, sans-serif; margin: 20px; background-color: #f5f5f5; \x7d\n        .container \x7b max-width: 1200px; margin: 0 auto; background: white; padding: 20px; border-radius: 8px; box-shadow: 0 2px 4px rgba(0,0,0,0.1); \x7d\n        .header \x7b text-align: center; margin-bottom: 30px; \x7d\n        .summary \x7b display: grid; grid-template-columns: repeat(auto-fit, minmax(200px, 1fr)); gap: 20px; margin-bottom: 30px; \x7d\n        .summary-card \x7b background: #f8f9fa; padding: 20px; border-radius: 8px; text-align: center; border-left: 4px solid #007bff; \x7d\n        .summary-card.passed \x7b border-left-color: #28a745; \x7d\n        .summary-card.failed \x7b border-left-color: #dc3545; \x7d\n        .summary-card.skipped \x7b border-left-color: #ffc107; \x7d\n        .summary-card h3 \x7b margin: 0 0 10px 0; font-size: 2em; \x7d\n        .summary-card p \x7b margin: 0; color: #666; \x7d\n        .test-results \x7b margin-top: 30px; \x7d\n        .test-item \x7b padding: 15px; margin: 10px 0; border-radius: 5px; border-left: 4px solid #ddd; \x7d\n        .test-item.passed \x7b background: #d4edda; border-left-color: #28a745; \x7d\n        .test-item.failed \x7b background: #f8d7da; border-left-color: #dc3545; \x7d\n        .test-item.skipped \x7b background: #fff3cd; border-left-color: #ffc107; \x7d\n        .test-title \x7b font-weight: bold; margin-bottom: 5px; \x7d\n        .test-meta \x7b font-size: 0.9em; color: #666; \x7d\n        .timestamp \x7b text-align: center; margin-top: 30px; color: #666; font-size: 0.9em; \x7d\n    </style>\n</head>\n<body>\n    <div class=\"container\">\n        <div class=\"header\">\n            <h1>Test Execution Report</h1>\n            <p>Generated on "

def bh1 : String :=
  "</p>\n        </div>\n        \n        <div class=\"summary\">\n            <div class=\"summary-card\">\n                <h3>"

def bh2 : String :=
  "</h3>\n                <p>Total Tests</p>\n            </div>\n            <div class=\"summary-card passed\">\n                <h3>"

def bh3 : String :=
  "</h3>\n                <p>Passed</p>\n            </div>\n            <div class=\"summary-card failed\">\n                <h3>"

def bh4 : String :=
  "</h3>\n                <p>Failed</p>\n            </div>\n            <div class=\"summary-card skipped\">\n                <h3>"

def bh5 : String :=
  "</h3>\n                <p>Skipped</p>\n            </div>\n            <div class=\"summary-card\">\n                <h3>"

def bh6 : String :=
  "%</h3>\n                <p>Pass Rate</p>\n            </div>\n            <div class=\"summary-card\">\n                <h3>"

def bh7 : String :=
  "s</h3>\n                <p>Duration</p>\n            </div>\n        </div>\n        \n        <div class=\"test-results\">\n            <h2>Test Results</h2>\n            "

def bh8 : String :=
  "\n        </div>\n        \n        <div class=\"timestamp\">\n            <p>Report generated at "

def bh9 : String :=
  "</p>\n        </div>\n    </div>\n</body>\n</html>"

def bt0 : String :=
  "\n                <div class=\"test-item "

def bt1 : String :=
  "\">\n                    <div class=\"test-title\">"

def bt2 : String :=
  "</div>\n                    <div class=\"test-meta\">\n                        Status: "

def bt3 : String :=
  " | \n                        Duration: "

def bt4 : String :=
  "ms | \n                        File: "

def bt5 : String :=
  "\n                    </div>\n                </div>\n            "

/-- JavaScript `a || b` where `a` is a possibly-undefined string: both
`undefined` and the empty string are falsy. -/
def jsOrStr (v : Option String) (d : String) : String :=
  match v with
  | none => d
  | some s => if s = "" then d else s

/-- The pieces of a JavaScript `Date` value that the reporters read:
`getTime()`, `toLocaleString()` (under the ambient locale) and
`toISOString()`. -/
structure DateVal where
  epochMs : Int
  localeStr : String
  isoStr : String
deriving DecidableEq, Repr

/-- `CustomHtmlReporter.formatDuration` (enhanced variant, lines 672-684):
`Math.floor` division is floor division (`Int.fdiv`); the `%` remainders are
applied to already-floored non-negative quantities. -/
def formatDuration (ms : Int) : String :=
  let seconds := Int.fdiv ms 1000
  let minutes := Int.fdiv seconds 60
  let hours := Int.fdiv minutes 60
  if 0 < hours then
    toString hours ++ ("h ") ++ toString (Int.tmod minutes 60) ++ ("m ") ++
      toString (Int.tmod seconds 60) ++ ("s")
  else if 0 < minutes then
    toString minutes ++ ("m ") ++ toString (Int.tmod seconds 60) ++ ("s")
  else
    toString seconds ++ ("s")

/-- The `statusClass` conditional chain of `generateTestResultsHtml`. -/
def statusClass (status : String) : String :=
  if status = "passed" then "passed"
  else if status = "failed" then "failed"
  else if status = "skipped" then "skipped"
  else "flaky"

/-- The `statusIcon` conditional chain of `generateTestResultsHtml`. -/
def statusIcon (status : String) : String :=
  if status = "passed" then "✅"
  else if status = "failed" then "❌"
  else if status = "skipped" then "⏭️"
  else "🔄"

/-- The `errorHtml` ternary: rendered only when `result.error` is present;
message and stack are passed through `escapeHtml` (with `|| ''`). -/
def errorHtmlOf (r : TestRecord) : String :=
  match r.error with
  | some e =>
      ee0 ++ escapeHtml (jsOrStr e.message ("")) ++ ee1 ++
        escapeHtml (jsOrStr e.stack ("")) ++ ee2
  | none => ""

/-- One attachment entry: the name is embedded raw; the link is rendered
only when `attachment.path` is truthy. -/
def attachmentHtml (a : AttachmentRec) : String :=
  eat0 ++ a.name ++ eat1 ++
    (match a.path with
     | none => ""
     | some p => if p = "" then "" else elink0 ++ p ++ elink1) ++ eat2

/-- The `attachmentsHtml` ternary: rendered only when the attachment list is
non-empty. -/
def attachmentsHtmlOf (r : TestRecord) : String :=
  if 0 < r.attachments.length then
    ea0 ++ String.join (r.attachments.map attachmentHtml) ++ ea1
  else ""

/-- One entry of `generateTestResultsHtml` (enhanced variant, lines
296-344): title and file pass through `escapeHtml`; the retry badge is
rendered only when `result.retry > 0`. -/
def testResultHtml (r : TestRecord) : String :=
  et0 ++ statusClass r.status ++ et1 ++ r.status ++ et2 ++
    statusIcon r.status ++ et3 ++ escapeHtml r.title ++ et4 ++
    escapeHtml r.file ++ et5 ++ toString r.duration ++ et6 ++
    (if 0 < r.retry then eretry0 ++ toString r.retry ++ eretry1 else "") ++
    et7 ++ errorHtmlOf r ++ et8 ++ attachmentsHtmlOf r ++ et9

/-- `generateTestResultsHtml`: map over the recorded outcomes in arrival
order, `join('')`. -/
def generateTestResultsHtml (rs : List TestRecord) : String :=
  String.join (rs.map testResultHtml)

/-- The `${process.env.NODE_ENV || 'development'}` interpolation. -/
def htmlEnvStr (nodeEnv : Option String) : String :=
  jsOrStr nodeEnv ("development")

/-- The enhanced `generateHtmlReport` output up to (and excluding) the
`NODE_ENV` interpolation. -/
def generateHtmlReportPre (rs : List TestRecord) (startTime endTime : DateVal) :
    String :=
  eh0 ++ enhancedStyles ++ eh1 ++ endTime.localeStr ++ eh2 ++
    toString (totalTests rs) ++ eh3 ++ toString (passedTests rs) ++ eh4 ++
    toString (failedTests rs) ++ eh5 ++ toString (skippedTests rs) ++ eh6 ++
    toString (flakyTests rs) ++ eh7 ++ passRateStr rs ++ eh8 ++
    passRateStr rs ++ eh9 ++ startTime.localeStr ++ eh10 ++
    endTime.localeStr ++ eh11 ++
    formatDuration (endTime.epochMs - startTime.epochMs) ++ eh12

/-- The enhanced `generateHtmlReport` output after the `NODE_ENV`
interpolation. -/
def generateHtmlReportPost (rs : List TestRecord) : String :=
  eh13 ++ toString (passedTests rs) ++ eh14 ++ toString (failedTests rs) ++
    eh15 ++ toString (skippedTests rs) ++ eh16 ++ toString (flakyTests rs) ++
    eh17 ++ generateTestResultsHtml rs ++ eh18 ++ enhancedScript ++ eh19

/-- The HTML document written by the enhanced `generateHtmlReport`
(lines 190-294): a function of the recorded outcomes, the start/end `Date`
values and the `NODE_ENV` environment variable. -/
def generateHtmlReport (rs : List TestRecord) (startTime endTime : DateVal)
    (nodeEnv : Option String) : String :=
  generateHtmlReportPre rs startTime endTime ++ htmlEnvStr nodeEnv ++
    generateHtmlReportPost rs

/-- JavaScript `Math.round`: round half towards positive infinity. -/
def jsRound (q : ℚ) : Int := ⌊q + 1 / 2⌋

/-- `path.basename` for POSIX paths: the component after the last slash. -/
def basename (p : String) : String :=
  (p.split (fun c => c = '/')).getLastD p

/-- One entry of the basic reporter's test list (basic variant, lines
121-129): `test.title` is embedded with no escaping. -/
def basicTestItemHtml (r : TestRecord) : String :=
  bt0 ++ r.status ++ bt1 ++ r.title ++ bt2 ++ r.status.toUpper ++ bt3 ++
    toString r.duration ++ bt4 ++ basename r.file ++ bt5

/-- The HTML document written by the basic `generateHtmlReport`
(lines 48-141). -/
def basicGenerateHtmlReport (rs : List TestRecord)
    (startTime endTime : DateVal) : String :=
  bh0 ++ endTime.localeStr ++ bh1 ++ toString (totalTests rs) ++ bh2 ++
    toString (passedTests rs) ++ bh3 ++ toString (failedTests rs) ++ bh4 ++
    toString (skippedTests rs) ++ bh5 ++ passRateStr rs ++ bh6 ++
    toString (jsRound (((endTime.epochMs - startTime.epochMs : Int) : ℚ) / 1000)) ++
    bh7 ++ String.join (rs.map basicTestItemHtml) ++ bh8 ++
    endTime.isoStr ++ bh9

end ThucWeb

namespace ThucWeb

/-- A fixed `Date` value used for concrete render inputs. -/
def demoDate : DateVal :=
  { epochMs := 1704110400000, localeStr := "1/1/2024, 1:00:00 PM",
    isoStr := "2024-01-01T12:00:00.000Z" }

/-- C8 counterexample: two invocations of the enhanced render function on
identical recorded outcome sequences and identical start/end times (hence an
identical run summary) produce different HTML bytes when the `NODE_ENV`
environment variable differs, because the template interpolates
`process.env.NODE_ENV || 'development'`. -/
theorem render_determinism_counterexample :
    generateHtmlReport demoRun demoDate demoDate (some ("production")) ≠
      generateHtmlReport demoRun demoDate demoDate none := by
  intro h
  have h2 := congrArg String.length h
  simp only [generateHtmlReport, String.length_append] at h2
  have e1 : htmlEnvStr (some ("production")) = "production" := rfl
  have e2 : htmlEnvStr none = "development" := rfl
  rw [e1, e2] at h2
  have l1 : String.length ("production") = 10 := rfl
  have l2 : String.length ("development") = 11 := rfl
  rw [l1, l2] at h2
  omega

/-- C8 (amended): the enhanced render function is a pure function of the
recorded outcome sequence, the start/end `Date` values and `NODE_ENV`: two
invocations agreeing on all of these produce byte-identical HTML.  Identical
outcome sequences alone do not suffice (see the counterexample). -/
theorem render_deterministic (rs1 rs2 : List TestRecord)
    (st1 st2 et1 et2 : DateVal) (env1 env2 : Option String)
    (hrs : rs1 = rs2) (hst : st1 = st2) (het : et1 = et2)
    (henv : env1 = env2) :
    generateHtmlReport rs1 st1 et1 env1 =
      generateHtmlReport rs2 st2 et2 env2 := by
  subst hrs
  subst hst
  subst het
  subst henv
  rfl

/-- Witness for C8 (amended) at concrete equal inputs. -/
theorem render_deterministic_witness :
    generateHtmlReport demoRun demoDate demoDate none =
      generateHtmlReport demoRun demoDate demoDate none :=
  render_deterministic demoRun demoRun demoDate demoDate demoDate demoDate
    none none rfl rfl rfl rfl

/-- C5 (amended): the enhanced reporter passes titles, files, error messages
and error stacks through `escapeHtml` (see `testResultHtml` and
`errorHtmlOf`), and every `escapeHtml` output is a concatenation of HTML
entities and characters other than the five special ones, so `<`, `>`, `&`,
`"`, `'` appear in it only as entities; in particular the title
`<script>x</script>` is rendered as its escaped literal text.  (The basic
reporter variant embeds `test.title` raw — see the counterexample.) -/
theorem escapeHtml_only_entities :
    (∀ s : String, EscSeq ((escapeHtml s).data)) ∧
    escapeHtml ("<script>x</script>") = "&lt;script&gt;x&lt;/script&gt;" :=
  ⟨fun s => escChain_escaped s.data, by decide⟩

/-- `s` contains `pat` as a contiguous substring. -/
def strContains (pat s : String) : Prop :=
  ∃ a b : String, s = a ++ pat ++ b

/-- A recorded outcome whose title carries HTML markup. -/
def scriptTitleRecord : TestRecord :=
  { title := "<script>x</script>", file := "a.spec.ts", status := "failed",
    duration := 5, retry := 0, error := none, attachments := [] }

/-- C5 counterexample: the basic reporter variant embeds `test.title`
without escaping, so the report generated for a test titled
`<script>x</script>` contains that raw executable markup as a substring —
the `<` and `>` of the title do not appear as entities in this generated
report. -/
theorem basicReport_unescaped_title :
    strContains ("<script>x</script>")
      (basicGenerateHtmlReport [scriptTitleRecord] demoDate demoDate) := by
  have hjoin : String.join (List.map basicTestItemHtml [scriptTitleRecord]) =
      basicTestItemHtml scriptTitleRecord := by
    simp [String.join]
  refine ⟨bh0 ++ demoDate.localeStr ++ bh1 ++
    toString (totalTests [scriptTitleRecord]) ++ bh2 ++
    toString (passedTests [scriptTitleRecord]) ++ bh3 ++
    toString (failedTests [scriptTitleRecord]) ++ bh4 ++
    toString (skippedTests [scriptTitleRecord]) ++ bh5 ++
    passRateStr [scriptTitleRecord] ++ bh6 ++
    toString (jsRound (((demoDate.epochMs - demoDate.epochMs : Int) : ℚ) / 1000)) ++
    bh7 ++ bt0 ++ ("failed") ++ bt1,
    bt2 ++ ("failed").toUpper ++ bt3 ++ toString (5 : Int) ++ bt4 ++
      basename ("a.spec.ts") ++ bt5 ++ bh8 ++ demoDate.isoStr ++ bh9, ?_⟩
  have hs : scriptTitleRecord.status = "failed" := rfl
  have ht : scriptTitleRecord.title = "<script>x</script>" := rfl
  have hd : scriptTitleRecord.duration = (5 : Int) := rfl
  have hf : scriptTitleRecord.file = "a.spec.ts" := rfl
  simp only [basicGenerateHtmlReport, hjoin, basicTestItemHtml, hs, ht, hd, hf]
  simp only [String.append_assoc]

end ThucWeb

namespace ThucWeb

/-! ## ReportUtils (src/src/utils/ReportUtils.ts, with the variant copy
embedded in src/src/reporters/CustomHtmlReporter.ts)

File-system and page effects are modelled by explicit success oracles; the
functions record which steps ran and what they returned. -/

/-- A JavaScript value of type `string | null`. -/
inductive JsRet where
  | nullv : JsRet
  | str : String → JsRet
deriving DecidableEq, Repr

/-- `testInfo.title.replace(/[^a-zA-Z0-9]/g, '-')`. -/
def sanitizeTestName (title : String) : String :=
  String.mk (title.data.map (fun c => if c.isAlphanum then c else '-'))

/-- `test-results/traces/trace-<sanitized title>-<timestamp>.zip`
(built by `stopTraceRecording`). -/
def tracePathOf (title ts : String) : String :=
  ("test-results/traces/trace-") ++ sanitizeTestName title ++ ("-") ++ ts ++
    (".zip")

/-- `test-results/screenshots/failure-<sanitized title>-<timestamp>.png`
(built by `takeFailureScreenshot`). -/
def screenshotPathOf (title ts : String) : String :=
  ("test-results/screenshots/failure-") ++ sanitizeTestName title ++ ("-") ++
    ts ++ (".png")

/-- `test-results/traces/failure-trace-<sanitized title>-<timestamp>.zip`
(built by `captureFailureTrace`). -/
def failTracePathOf (title ts : String) : String :=
  ("test-results/traces/failure-trace-") ++ sanitizeTestName title ++
    ("-") ++ ts ++ (".zip")

/-- The page-context tracing state: `tracing.stop` succeeds exactly when a
trace-recording session is active, and deactivates it. -/
structure TraceCtx where
  tracingActive : Bool
deriving DecidableEq, Repr

/-- `ReportUtils.stopTraceRecording` in src/src/utils/ReportUtils.ts (lines
127-143): builds the trace path, tries `tracing.stop`; on success returns
the path, on failure the `catch` logs a warning and returns `''`
(the empty string — its declared return type is `Promise<string>`). -/
def stopTraceRecording (ctx : TraceCtx) (title ts : String) :
    TraceCtx × JsRet :=
  if ctx.tracingActive then
    ({ tracingActive := false }, JsRet.str (tracePathOf title ts))
  else
    (ctx, JsRet.str (""))

/-- The `ReportUtils.stopTraceRecording` variant embedded in
src/src/reporters/CustomHtmlReporter.ts (lines 765-781): identical except
that its `catch` returns `null` (return type `Promise<string | null>`). -/
def reporterStopTraceRecording (ctx : TraceCtx) (title ts : String) :
    TraceCtx × JsRet :=
  if ctx.tracingActive then
    ({ tracingActive := false }, JsRet.str (tracePathOf title ts))
  else
    (ctx, JsRet.nullv)

/-- C7 counterexample: when no trace is active (the stop call fails), the
`stopTraceRecording` in ReportUtils.ts returns the empty string, not null. -/
theorem stopTraceRecording_counterexample :
    (stopTraceRecording { tracingActive := false } ("t") ("1")).2 =
      JsRet.str ("") ∧ JsRet.str ("") ≠ JsRet.nullv :=
  ⟨rfl, by decide⟩

/-- C7 (amended): both variants return the trace file path (and deactivate
tracing) when a trace-recording session was active; when none is active the
ReportUtils.ts variant returns the empty string while the variant embedded
in the reporter file returns null. -/
theorem stopTraceRecording_spec (ctx : TraceCtx) (title ts : String) :
    (ctx.tracingActive = true →
      stopTraceRecording ctx title ts =
        ({ tracingActive := false }, JsRet.str (tracePathOf title ts)) ∧
      reporterStopTraceRecording ctx title ts =
        ({ tracingActive := false }, JsRet.str (tracePathOf title ts))) ∧
    (ctx.tracingActive = false →
      stopTraceRecording ctx title ts = (ctx, JsRet.str ("")) ∧
      reporterStopTraceRecording ctx title ts = (ctx, JsRet.nullv)) := by
  constructor <;> intro h <;>
    simp [stopTraceRecording, reporterStopTraceRecording, h]

/-- Witness for C7 (amended): stopping an active trace of test
`My Test!` at timestamp 123 yields the sanitized zip path; stopping with no
active trace yields null in the reporter-file variant. -/
theorem stopTraceRecording_spec_witness :
    stopTraceRecording { tracingActive := true } ("My Test!") ("123") =
      ({ tracingActive := false },
        JsRet.str ("test-results/traces/trace-My-Test--123.zip")) ∧
    reporterStopTraceRecording { tracingActive := false } ("t") ("1") =
      ({ tracingActive := false }, JsRet.nullv) := by
  constructor
  · have h :=
      ((stopTraceRecording_spec { tracingActive := true } ("My Test!")
        ("123")).1 rfl).1
    rw [h]
    decide
  · exact ((stopTraceRecording_spec { tracingActive := false } ("t")
      ("1")).2 rfl).2

/-- Success oracles for the I/O steps of `createFailureReport`: whether
`page.screenshot` succeeds (false when the page handle is already closed),
whether `tracing.stop` succeeds, whether the `page.evaluate` of the browser
info succeeds, and whether the report `writeFileSync` succeeds. -/
structure CaptureEnv where
  screenshotOk : Bool
  traceStopOk : Bool
  browserOk : Bool
  writeOk : Bool
deriving DecidableEq, Repr

/-- The capture steps of `createFailureReport`, in source order. -/
inductive CaptureStep where
  | initDirs
  | screenshot
  | traceStop
  | browserInfo
  | reportWrite
  | attach
deriving DecidableEq, Repr

/-- The fields of the persisted FailureReport JSON that depend on the
capture: `artifacts.screenshot`, `artifacts.trace` (empty string when the
trace capture failed) and whether `browserInfo` is non-null. -/
structure FailureReportRec where
  title : String
  errorPresent : Bool
  screenshot : String
  trace : String
  browserInfoPresent : Bool
deriving DecidableEq, Repr

/-- The observable outcome of a `createFailureReport` call: whether an
exception escaped, which capture steps were started, the failure report
written (if the write was reached), and the attachments pushed onto
`testInfo.attachments`. -/
structure CFROutcome where
  threw : Bool
  attempted : List CaptureStep
  written : Option FailureReportRec
  attachments : List (String × String)
deriving DecidableEq, Repr

/-- `ReportUtils.createFailureReport` (src/src/utils/ReportUtils.ts, lines
295-357).  The whole body runs inside a single `try`; `takeFailureScreenshot`
has no internal handler, so a screenshot failure propagates to the
function-level `catch` (which only logs), skipping every later step;
`captureFailureTrace` and `captureBrowserInfo` catch their own failures and
return `''` and `null`; a `writeFileSync` failure likewise propagates to the
function-level `catch`, skipping the attach step.  An artifact is attached
only when its path is truthy and the file exists on disk, i.e. when the
corresponding capture succeeded.  The copy embedded in
CustomHtmlReporter.ts (lines 820-884) differs only in omitting the
browser-info step and naming the trace step differently; its control flow
around screenshot, write and attach is identical. -/
def createFailureReport (env : CaptureEnv) (title ts : String)
    (errorPresent : Bool) : CFROutcome :=
  if env.screenshotOk = false then
    { threw := false,
      attempted := [CaptureStep.initDirs, CaptureStep.screenshot],
      written := none, attachments := [] }
  else
    let spath := screenshotPathOf title ts
    let tpath := if env.traceStopOk then failTracePathOf title ts else ""
    let report : FailureReportRec :=
      { title := title, errorPresent := errorPresent, screenshot := spath,
        trace := tpath, browserInfoPresent := env.browserOk }
    if env.writeOk = false then
      { threw := false,
        attempted := [CaptureStep.initDirs, CaptureStep.screenshot,
          CaptureStep.traceStop, CaptureStep.browserInfo,
          CaptureStep.reportWrite],
        written := none, attachments := [] }
    else
      { threw := false,
        attempted := [CaptureStep.initDirs, CaptureStep.screenshot,
          CaptureStep.traceStop, CaptureStep.browserInfo,
          CaptureStep.reportWrite, CaptureStep.attach],
        written := some report,
        attachments :=
          [(("failure-screenshot"), spath)] ++
            (if tpath ≠ "" then [(("failure-trace"), tpath)] else []) }

/-- C2 counterexample: for a test whose page handle is already closed (the
screenshot call throws), `createFailureReport` writes no FailureReport JSON
record at all — rather than producing one with an absent/empty screenshot —
because the screenshot error is caught only by the function-level catch,
which skips the report write. -/
theorem createFailureReport_closedPage_counterexample :
    (createFailureReport
      { screenshotOk := false, traceStopOk := true, browserOk := true,
        writeOk := true } ("t") ("1") true).written = none := by
  decide

/-- C2 (amended): no exception ever escapes `createFailureReport` (the
function-level catch swallows everything), but when the page handle is
closed (the screenshot throws) no FailureReport record is produced at all;
whenever a report is produced, its `artifacts.screenshot` is the non-empty
screenshot path. -/
theorem createFailureReport_noThrow (env : CaptureEnv) (title ts : String)
    (ep : Bool) :
    (createFailureReport env title ts ep).threw = false ∧
    (env.screenshotOk = false →
      (createFailureReport env title ts ep).written = none) := by
  rcases env with ⟨s, t, b, w⟩
  cases s <;> cases w <;> simp [createFailureReport]

/-- Witness for C2 (amended) at a closed-page environment. -/
theorem createFailureReport_noThrow_witness :
    (createFailureReport
      { screenshotOk := false, traceStopOk := true, browserOk := true,
        writeOk := true } ("t") ("1") true).threw = false ∧
    (createFailureReport
      { screenshotOk := false, traceStopOk := true, browserOk := true,
        writeOk := true } ("t") ("1") true).written = none :=
  ⟨(createFailureReport_noThrow
      { screenshotOk := false, traceStopOk := true, browserOk := true,
        writeOk := true } ("t") ("1") true).1,
   (createFailureReport_noThrow
      { screenshotOk := false, traceStopOk := true, browserOk := true,
        writeOk := true } ("t") ("1") true).2 rfl⟩

/-- C3 counterexample: the capture steps are not attempted independently:
when the screenshot step fails, the trace-stop step (and everything after
it) is never started. -/
theorem captureSteps_not_independent :
    CaptureStep.traceStop ∉
      (createFailureReport
        { screenshotOk := false, traceStopOk := true, browserOk := true,
          writeOk := true } ("t") ("1") true).attempted := by
  decide

/-- C3 (amended): only the trace-stop and browser-info steps fail
independently — their errors are caught internally and the remaining steps
still run, whatever their oracles say — whereas a screenshot failure aborts
every remaining step and a report-write failure aborts the attach step
(both are caught only by the function-level catch). -/
theorem captureSteps_independence (env : CaptureEnv) (title ts : String)
    (ep : Bool) :
    (env.screenshotOk = true → env.writeOk = true →
      (createFailureReport env title ts ep).attempted =
        [CaptureStep.initDirs, CaptureStep.screenshot, CaptureStep.traceStop,
         CaptureStep.browserInfo, CaptureStep.reportWrite,
         CaptureStep.attach] ∧
      (createFailureReport env title ts ep).written ≠ none) ∧
    (env.screenshotOk = false →
      (createFailureReport env title ts ep).attempted =
        [CaptureStep.initDirs, CaptureStep.screenshot]) ∧
    (env.screenshotOk = true → env.writeOk = false →
      (createFailureReport env title ts ep).attempted =
        [CaptureStep.initDirs, CaptureStep.screenshot, CaptureStep.traceStop,
         CaptureStep.browserInfo, CaptureStep.reportWrite]) := by
  refine ⟨fun hs hw => ?_, fun hs => ?_, fun hs hw => ?_⟩
  · simp [createFailureReport, hs, hw]
  · simp [createFailureReport, hs]
  · simp [createFailureReport, hs, hw]

/-- Witness for C3 (amended): with the trace-stop and browser-info steps
both failing but the screenshot and write succeeding, every step through
attach still runs and a report is written. -/
theorem captureSteps_independence_witness :
    (createFailureReport
      { screenshotOk := true, traceStopOk := false, browserOk := false,
        writeOk := true } ("t") ("1") true).attempted =
      [CaptureStep.initDirs, CaptureStep.screenshot, CaptureStep.traceStop,
       CaptureStep.browserInfo, CaptureStep.reportWrite,
       CaptureStep.attach] ∧
    (createFailureReport
      { screenshotOk := true, traceStopOk := false, browserOk := false,
        writeOk := true } ("t") ("1") true).written ≠ none :=
  (captureSteps_independence
    { screenshotOk := true, traceStopOk := false, browserOk := false,
      writeOk := true } ("t") ("1") true).1 rfl rfl

end ThucWeb
